import Mathlib

/-!
Verification of the financial-calculation core of the reno-finder-starter
repository against its natural-language specification.

The repository contains two versions of the same FastAPI application:
srcApp  = src/app/main.py   (earlier version: numeric input validation,
                             no unit normalization, forward solve only)
srcMy   = src/myapp/main.py (later version: unit normalization with
                             warnings, bidirectional solve, only the
                             loan-term validator)

Python floats are modelled as exact rationals, Python ints as integers.
Python round(x, nd) (banker's rounding to nd decimal places) is modelled
by pyRound.  The shared calculation utilities appear verbatim in both
files and are embedded once below.
-/

/-- Rounding of a rational to the nearest integer, ties to even -- the
idealized semantics of Python round on one argument. -/
def pyRoundInt (x : ℚ) : ℤ :=
  if x - ⌊x⌋ < 1 / 2 then ⌊x⌋
  else if 1 / 2 < x - ⌊x⌋ then ⌊x⌋ + 1
  else if ⌊x⌋ % 2 = 0 then ⌊x⌋ else ⌊x⌋ + 1

/-- Python round(x, nd): round to nd decimal places, ties to even. -/
def pyRound (x : ℚ) (nd : ℕ) : ℚ :=
  (pyRoundInt (x * 10 ^ nd) : ℚ) / 10 ^ nd

/-- pv_annuity, src/myapp/main.py lines 26-31 (identical at
src/app/main.py lines 20-23).  The Python power (1+i) ** (-n) on the
integer exponent -n is zpow. -/
def pv_annuity (monthly i : ℚ) (n : ℤ) : ℚ :=
  if n ≤ 0 then 0
  else if i = 0 then monthly * (n : ℚ)
  else monthly * (1 - (1 + i) ^ (-n)) / i

/-- The while-loop of pv_bonuses, src/myapp/main.py lines 38-43
(identical at src/app/main.py lines 28-33), with the step every_months
fixed at its default 6, the value used at every call site. -/
def pvBonusLoop (bonus_per_event i : ℚ) (n m : ℤ) (pv : ℚ) : ℚ :=
  if m ≤ n then
    pvBonusLoop bonus_per_event i n (m + 6) (pv + bonus_per_event / (1 + i) ^ m)
  else pv
termination_by (n + 6 - m).toNat
decreasing_by simp_wf; omega

/-- pv_bonuses, src/myapp/main.py lines 33-43 (identical at
src/app/main.py lines 25-33), with every_months fixed at its default 6.
Python floor division n // 6 is Int.fdiv. -/
def pv_bonuses (bonus_per_event i : ℚ) (n : ℤ) : ℚ :=
  if bonus_per_event ≤ 0 ∨ n ≤ 0 then 0
  else if i = 0 then bonus_per_event * ((Int.fdiv n 6 : ℤ) : ℚ)
  else pvBonusLoop bonus_per_event i n 6 0

/-- loan_capacity_by_payments, src/myapp/main.py lines 45-48 (identical
at src/app/main.py lines 35-38). -/
def loan_capacity_by_payments (monthly_man bonus_man rate_percent : ℚ) (years : ℤ) : ℚ :=
  pv_annuity monthly_man (rate_percent / 100 / 12) (years * 12) +
    pv_bonuses bonus_man (rate_percent / 100 / 12) (years * 12)

/-- monthly_payment_from_total_loan, src/myapp/main.py lines 50-60
(only present in the myapp version). -/
def monthly_payment_from_total_loan (total_loan_man bonus_man rate_percent : ℚ) (years : ℤ) : ℚ :=
  if years * 12 ≤ 0 then 0
  else
    let n : ℤ := years * 12
    let i : ℚ := rate_percent / 100 / 12
    let pv_bonus := pv_bonuses bonus_man i n
    let pv_for_monthly := max (total_loan_man - pv_bonus) 0
    if i = 0 then pv_for_monthly / (n : ℚ)
    else pv_for_monthly * i / (1 - (1 + i) ^ (-n))

/-- full_renovation_cost, src/myapp/main.py lines 62-63 (identical at
src/app/main.py lines 40-42). -/
def full_renovation_cost (area_m2 : ℤ) : ℚ := (area_m2 : ℚ) * 12 + 350

/-- solve_purchase_price, src/myapp/main.py lines 65-66 (identical at
src/app/main.py lines 44-45). -/
def solve_purchase_price (total_funds_man fee_rate : ℚ) : ℚ :=
  max (total_funds_man / (1 + max fee_rate 0)) 0

/-- normalize_man_input, src/myapp/main.py lines 69-79 (only present in
the myapp version).  The nullable Python argument is an Option. -/
def normalize_man_input (x : Option ℚ) : ℚ × Bool :=
  match x with
  | none => (0, false)
  | some v => if 100000 ≤ v then (v / 10000, true) else (v, false)

/-- FEE_RATE with its default configuration value 0.08 (src/myapp/main.py
line 20, src/app/main.py line 16). -/
def FEE_RATE : ℚ := 8 / 100

/-- TAX_RATE with its default configuration value 0.10 (src/myapp/main.py
line 21, src/app/main.py line 17). -/
def TAX_RATE : ℚ := 10 / 100

/-!
Checked variants of the three formulas named by the division-safety
claim.  Each variant mirrors its source function exactly, except that at
every spot where the Python evaluation could raise ZeroDivisionError --
a division whose divisor is zero, or a zero base raised to a negative
integer power -- it returns none instead.  A proof that the checked
variant returns some of the original value is a proof that the original
runs no division by zero.
-/

/-- Checked pv_annuity: the hazards are (1+i) ** (-n) with zero base and
negative exponent (n is positive past the first guard), and the division
by i (made impossible by the explicit i = 0 branch). -/
def pv_annuityChk (monthly i : ℚ) (n : ℤ) : Option ℚ :=
  if n ≤ 0 then some 0
  else if i = 0 then some (monthly * (n : ℚ))
  else if 1 + i = 0 then none
  else some (monthly * (1 - (1 + i) ^ (-n)) / i)

/-- Checked while-loop of pv_bonuses: the hazard is the division by
(1+i) ** m at each iteration. -/
def pvBonusLoopChk (bonus_per_event i : ℚ) (n m : ℤ) (pv : ℚ) : Option ℚ :=
  if m ≤ n then
    if (1 + i) ^ m = 0 then none
    else pvBonusLoopChk bonus_per_event i n (m + 6) (pv + bonus_per_event / (1 + i) ^ m)
  else some pv
termination_by (n + 6 - m).toNat
decreasing_by simp_wf; omega

/-- Checked pv_bonuses. -/
def pv_bonusesChk (bonus_per_event i : ℚ) (n : ℤ) : Option ℚ :=
  if bonus_per_event ≤ 0 ∨ n ≤ 0 then some 0
  else if i = 0 then some (bonus_per_event * ((Int.fdiv n 6 : ℤ) : ℚ))
  else pvBonusLoopChk bonus_per_event i n 6 0

/-- Checked monthly_payment_from_total_loan: hazards are the inner
pv_bonuses call, the division by n in the zero-rate branch, the power
(1+i) ** (-n) with zero base, and the division by the annuity
denominator 1 - (1+i) ** (-n). -/
def monthly_payment_from_total_loanChk (total_loan_man bonus_man rate_percent : ℚ) (years : ℤ) : Option ℚ :=
  if years * 12 ≤ 0 then some 0
  else
    let n : ℤ := years * 12
    let i : ℚ := rate_percent / 100 / 12
    match pv_bonusesChk bonus_man i n with
    | none => none
    | some pv_bonus =>
      let pv_for_monthly := max (total_loan_man - pv_bonus) 0
      if i = 0 then
        if (n : ℚ) = 0 then none else some (pv_for_monthly / (n : ℚ))
      else if 1 + i = 0 then none
      else if 1 - (1 + i) ^ (-n) = 0 then none
      else some (pv_for_monthly * i / (1 - (1 + i) ^ (-n)))

/-- Renovation mode, the Literal type of reno_mode in both versions. -/
inductive RenoMode
  | full
  | manual
deriving DecidableEq

/-- Unit-correction warning tags, one per distinct warning message the
myapp calc handler can append (src/myapp/main.py lines 321, 327-329,
336); the Japanese message text is abstracted to a tag. -/
inductive Warn
  | selfW
  | monthlyW
  | totalW
  | bonusW
  | renoW
deriving DecidableEq

/-- Discriminates the ok constructor of an Except value: true exactly
when a result (rather than an error response) was produced. -/
def exOk {ε α : Type} : Except ε α → Bool
  | Except.ok _ => true
  | Except.error _ => false

namespace App

/-- CalcReq of src/app/main.py lines 48-64: every numeric field is
required; there is no total-loan input in this version. -/
structure CalcReq where
  self_man : ℚ
  monthly_man : ℚ
  rate_percent : ℚ
  area_need_m2 : ℤ
  years : ℤ
  reno_mode : RenoMode
  reno_cost_input_man : Option ℚ
  bonus_man : ℚ
  memo_text : String
deriving DecidableEq

/-- CalcRes of src/app/main.py lines 66-73. -/
structure CalcRes where
  ok : Bool
  total_loan_man : ℚ
  reno_cost_man : ℚ
  reno_cost_tax_incl_man : ℚ
  fee_man : ℚ
  purchasable_price_man : ℚ
  memo_text : String
deriving DecidableEq

/-- Error responses of the app version: the pydantic years validator
(lines 59-64) and the two 400 responses of the calc handler (lines
270-271 and 277-278). -/
inductive Err
  | invalidYears
  | invalidInput
  | missingRenoCost
deriving DecidableEq

/-- Tail of the calc handler, src/app/main.py lines 281-295: tax-incl
renovation cost, disposable funds, price, fee, rounded result.  NOTE:
line 283 subtracts the tax-exclusive reno_cost from disposable, not
reno_cost_tax_incl. -/
def finish (req : CalcReq) (total_loan reno_cost : ℚ) : CalcRes :=
  let reno_cost_tax_incl := reno_cost * (1 + TAX_RATE)
  let disposable := req.self_man + total_loan - reno_cost
  let purch_price := solve_purchase_price disposable FEE_RATE
  let fee := purch_price * FEE_RATE
  { ok := true
    total_loan_man := pyRound total_loan 1
    reno_cost_man := pyRound reno_cost 1
    reno_cost_tax_incl_man := pyRound reno_cost_tax_incl 1
    fee_man := pyRound fee 1
    purchasable_price_man := pyRound purch_price 1
    memo_text := req.memo_text }

/-- The calc handler, src/app/main.py lines 269-295 (the source function
is named calc, a reserved word in Lean): numeric guard, forward solve,
renovation-mode branch, then the shared tail. -/
def calcFn (req : CalcReq) : Except Err CalcRes :=
  if req.self_man < 0 ∨ req.monthly_man ≤ 0 ∨ req.rate_percent < 0 ∨ req.area_need_m2 ≤ 0 then
    Except.error Err.invalidInput
  else
    let total_loan := loan_capacity_by_payments req.monthly_man req.bonus_man req.rate_percent req.years
    match req.reno_mode, req.reno_cost_input_man with
    | RenoMode.full, _ => Except.ok (finish req total_loan (full_renovation_cost req.area_need_m2))
    | RenoMode.manual, none => Except.error Err.missingRenoCost
    | RenoMode.manual, some c => Except.ok (finish req total_loan c)

/-- The /calc endpoint: the pydantic years validator (src/app/main.py
lines 59-64, rejecting v <= 0 or v > 50) runs before the handler. -/
def calcEndpoint (req : CalcReq) : Except Err CalcRes :=
  if req.years ≤ 0 ∨ 50 < req.years then Except.error Err.invalidYears
  else calcFn req

end App

namespace MyApp

/-- CalcReq of src/myapp/main.py lines 84-101: monthly_man,
total_loan_input_man and reno_cost_input_man are Optional. -/
structure CalcReq where
  self_man : ℚ
  monthly_man : Option ℚ
  total_loan_input_man : Option ℚ
  rate_percent : ℚ
  area_need_m2 : ℤ
  years : ℤ
  reno_mode : RenoMode
  reno_cost_input_man : Option ℚ
  bonus_man : ℚ
  memo_text : String
deriving DecidableEq

/-- CalcRes of src/myapp/main.py lines 103-112; warning_text (the
joined warning messages, None when empty) is modelled as the ordered
list of warning tags. -/
structure CalcRes where
  ok : Bool
  monthly_man_out : ℚ
  total_loan_man : ℚ
  reno_cost_man : ℚ
  reno_cost_tax_incl_man : ℚ
  fee_man : ℚ
  purchasable_price_man : ℚ
  memo_text : String
  warnings : List Warn
deriving DecidableEq

/-- Error responses of the myapp version: only the pydantic years
validator (src/myapp/main.py lines 96-101) can reject a request. -/
inductive Err
  | invalidYears
deriving DecidableEq

/-- Normalized self funds with its correction flag, src/myapp/main.py
line 319. -/
def selfIn (req : CalcReq) : ℚ × Bool := normalize_man_input (some req.self_man)

/-- Normalized monthly payment with its correction flag, line 323: an
absent monthly is (0.0, False) without calling the normalizer. -/
def monthlyIn (req : CalcReq) : ℚ × Bool :=
  match req.monthly_man with
  | none => (0, false)
  | some v => normalize_man_input (some v)

/-- Normalized total-loan input with its correction flag, line 324. -/
def totalIn (req : CalcReq) : ℚ × Bool :=
  match req.total_loan_input_man with
  | none => (0, false)
  | some v => normalize_man_input (some v)

/-- Normalized bonus payment with its correction flag, line 325. -/
def bonusIn (req : CalcReq) : ℚ × Bool := normalize_man_input (some req.bonus_man)

/-- Renovation cost with its correction flag, lines 331-336: full mode
uses the area model (never corrected); manual mode normalizes the
manual input, where the Python expression (req.reno_cost_input_man or
0.0) yields 0.0 for an absent input (and for an input equal to 0.0,
with the same value). -/
def renoPair (req : CalcReq) : ℚ × Bool :=
  match req.reno_mode with
  | RenoMode.full => (full_renovation_cost req.area_need_m2, false)
  | RenoMode.manual => normalize_man_input (some (req.reno_cost_input_man.getD 0))

/-- The directional fork, lines 341-350: the pair (total_loan, monthly).
Reverse solve when the normalized total-loan input is positive and the
normalized monthly is not; forward solve otherwise. -/
def loanMonthly (req : CalcReq) : ℚ × ℚ :=
  if 0 < (totalIn req).1 ∧ (monthlyIn req).1 ≤ 0 then
    ((totalIn req).1,
      monthly_payment_from_total_loan (totalIn req).1 (bonusIn req).1 req.rate_percent req.years)
  else
    (loan_capacity_by_payments (monthlyIn req).1 (bonusIn req).1 req.rate_percent req.years,
      (monthlyIn req).1)

/-- Disposable funds, line 352: normalized self funds plus total loan
minus the tax-inclusive renovation cost of line 338. -/
def disposable (req : CalcReq) : ℚ :=
  (selfIn req).1 + (loanMonthly req).1 - (renoPair req).1 * (1 + TAX_RATE)

/-- The accumulated warning list, in the append order of lines 319-336. -/
def warnList (req : CalcReq) : List Warn :=
  (if (selfIn req).2 then [Warn.selfW] else []) ++
    (if (monthlyIn req).2 then [Warn.monthlyW] else []) ++
    (if (totalIn req).2 then [Warn.totalW] else []) ++
    (if (bonusIn req).2 then [Warn.bonusW] else []) ++
    (if (renoPair req).2 then [Warn.renoW] else [])

/-- The calc handler, src/myapp/main.py lines 315-368 (the source
function is named calc): normalization, renovation cost, directional
fork, disposable funds, price and fee, rounded response.  The handler
body itself has no error path. -/
def calcFn (req : CalcReq) : CalcRes :=
  { ok := true
    monthly_man_out := pyRound (loanMonthly req).2 2
    total_loan_man := pyRound (loanMonthly req).1 1
    reno_cost_man := pyRound (renoPair req).1 1
    reno_cost_tax_incl_man := pyRound ((renoPair req).1 * (1 + TAX_RATE)) 1
    fee_man := pyRound (solve_purchase_price (disposable req) FEE_RATE * FEE_RATE) 1
    purchasable_price_man := pyRound (solve_purchase_price (disposable req) FEE_RATE) 1
    memo_text := req.memo_text
    warnings := warnList req }

/-- The /calc endpoint: the pydantic years validator (lines 96-101,
rejecting v <= 0 or v > 50) runs before the handler. -/
def calcEndpoint (req : CalcReq) : Except Err CalcRes :=
  if req.years ≤ 0 ∨ 50 < req.years then Except.error Err.invalidYears
  else Except.ok (calcFn req)

end MyApp

/-- Input exhibiting the disposable-funds divergence of the app version
(zero rate and bonus keep the loan arithmetic exact and simple). -/
def reqC1 : App.CalcReq :=
  { self_man := 2000, monthly_man := 1, rate_percent := 0, area_need_m2 := 60,
    years := 1, reno_mode := RenoMode.full, reno_cost_input_man := none,
    bonus_man := 0, memo_text := "" }

/-- Input with negative self funds and non-positive area that the myapp
version processes without any validation error. -/
def reqC3neg : MyApp.CalcReq :=
  { self_man := -5, monthly_man := some 10, total_loan_input_man := none,
    rate_percent := 0, area_need_m2 := -3, years := 10,
    reno_mode := RenoMode.full, reno_cost_input_man := none,
    bonus_man := 0, memo_text := "" }

/-- App-version input with an out-of-range loan term (0 years). -/
def reqC3wa : App.CalcReq :=
  { self_man := 100, monthly_man := 10, rate_percent := 1, area_need_m2 := 50,
    years := 0, reno_mode := RenoMode.full, reno_cost_input_man := none,
    bonus_man := 0, memo_text := "" }

/-- Myapp-version input with an out-of-range loan term (51 years). -/
def reqC3wm : MyApp.CalcReq :=
  { self_man := 100, monthly_man := some 10, total_loan_input_man := none,
    rate_percent := 1, area_need_m2 := 50, years := 51,
    reno_mode := RenoMode.full, reno_cost_input_man := none,
    bonus_man := 0, memo_text := "" }

/-- Myapp-version input in MANUAL renovation mode with no manual cost. -/
def reqC4m : MyApp.CalcReq :=
  { self_man := 100, monthly_man := some 10, total_loan_input_man := none,
    rate_percent := 0, area_need_m2 := 50, years := 10,
    reno_mode := RenoMode.manual, reno_cost_input_man := none,
    bonus_man := 0, memo_text := "" }

/-- App-version input in MANUAL renovation mode with no manual cost. -/
def reqC4wa : App.CalcReq :=
  { self_man := 100, monthly_man := 10, rate_percent := 0, area_need_m2 := 50,
    years := 10, reno_mode := RenoMode.manual, reno_cost_input_man := none,
    bonus_man := 0, memo_text := "" }

/-- Myapp-version input that selects the reverse solve: a positive
total-loan input and no monthly payment. -/
def reqC5w : MyApp.CalcReq :=
  { self_man := 300, monthly_man := none, total_loan_input_man := some 2000,
    rate_percent := 0, area_need_m2 := 60, years := 10,
    reno_mode := RenoMode.full, reno_cost_input_man := none,
    bonus_man := 0, memo_text := "" }

/-- The response the app version produces for reqC1: the purchasable
price 872.2 comes from the tax-exclusive disposable 2000 + 12 - 1070. -/
def resC1 : App.CalcRes :=
  { ok := true, total_loan_man := 12, reno_cost_man := 1070,
    reno_cost_tax_incl_man := 1177, fee_man := 349 / 5,
    purchasable_price_man := 4361 / 5, memo_text := "" }

/-!  Theorems.  -/

/-- One-step unfolding of pvBonusLoop while the loop condition holds. -/
theorem pvBonusLoop_step (b i : ℚ) (n m : ℤ) (pv : ℚ) (h : m ≤ n) :
    pvBonusLoop b i n m pv = pvBonusLoop b i n (m + 6) (pv + b / (1 + i) ^ m) := by
  rw [pvBonusLoop]
  simp [h]

/-- pvBonusLoop returns its accumulator once the loop condition fails. -/
theorem pvBonusLoop_done (b i : ℚ) (n m : ℤ) (pv : ℚ) (h : ¬ m ≤ n) :
    pvBonusLoop b i n m pv = pv := by
  rw [pvBonusLoop]
  simp [h]

/-- One-step unfolding of pvBonusLoopChk while the loop condition holds
and the divisor is nonzero. -/
theorem pvBonusLoopChk_step (b i : ℚ) (n m : ℤ) (pv : ℚ) (h : m ≤ n)
    (hz : (1 + i) ^ m ≠ 0) :
    pvBonusLoopChk b i n m pv =
      pvBonusLoopChk b i n (m + 6) (pv + b / (1 + i) ^ m) := by
  rw [pvBonusLoopChk]
  simp [h, hz]

/-- pvBonusLoopChk returns its accumulator once the loop condition fails. -/
theorem pvBonusLoopChk_done (b i : ℚ) (n m : ℤ) (pv : ℚ) (h : ¬ m ≤ n) :
    pvBonusLoopChk b i n m pv = some pv := by
  rw [pvBonusLoopChk]
  simp [h]

/-- At a positive rate the discount factor of the annuity formulas is
strictly below one. -/
theorem annuity_discount_lt_one (i : ℚ) (n : ℤ) (hi : 0 < i) (hn : 0 < n) :
    (1 + i) ^ (-n) < 1 := by
  rw [zpow_neg]
  exact inv_lt_one_of_one_lt₀ (one_lt_zpow₀ (by linarith) (by omega))

/-- At a positive rate the annuity denominator 1 - (1+i) ** (-n) is
strictly positive, hence nonzero. -/
theorem annuity_denom_pos (i : ℚ) (n : ℤ) (hi : 0 < i) (hn : 0 < n) :
    0 < 1 - (1 + i) ^ (-n) := by
  have h := annuity_discount_lt_one i n hi hn
  linarith

/-- pvBonusLoopChk agrees with pvBonusLoop whenever the base 1+i is
nonzero: no iteration of the bonus loop divides by zero. -/
theorem pvBonusLoopChk_eq (b i : ℚ) (n : ℤ) (hbase : (1 : ℚ) + i ≠ 0) :
    ∀ m pv, pvBonusLoopChk b i n m pv = some (pvBonusLoop b i n m pv) := by
  have H : ∀ k : ℕ, ∀ m pv, (n + 6 - m).toNat ≤ k →
      pvBonusLoopChk b i n m pv = some (pvBonusLoop b i n m pv) := by
    intro k
    induction k with
    | zero =>
      intro m pv hk
      have hmn : ¬ m ≤ n := by omega
      rw [pvBonusLoopChk_done _ _ _ _ _ hmn, pvBonusLoop_done _ _ _ _ _ hmn]
    | succ k ih =>
      intro m pv hk
      by_cases hmn : m ≤ n
      · have hz : (1 + i) ^ m ≠ 0 := zpow_ne_zero m hbase
        rw [pvBonusLoopChk_step _ _ _ _ _ hmn hz, pvBonusLoop_step _ _ _ _ _ hmn]
        exact ih (m + 6) _ (by omega)
      · rw [pvBonusLoopChk_done _ _ _ _ _ hmn, pvBonusLoop_done _ _ _ _ _ hmn]
  exact fun m pv => H ((n + 6 - m).toNat) m pv le_rfl

/-- pv_annuityChk agrees with pv_annuity at every nonnegative rate. -/
theorem pv_annuityChk_eq (monthly i : ℚ) (n : ℤ) (hi : 0 ≤ i) :
    pv_annuityChk monthly i n = some (pv_annuity monthly i n) := by
  unfold pv_annuityChk pv_annuity
  by_cases h1 : n ≤ 0
  · simp [h1]
  · by_cases h2 : i = 0
    · simp [h1, h2]
    · have hbase : (1 : ℚ) + i ≠ 0 := by
        have : 0 < i := lt_of_le_of_ne hi (Ne.symm h2)
        intro hc
        linarith
      simp [h1, h2, hbase]

/-- pv_bonusesChk agrees with pv_bonuses at every nonnegative rate. -/
theorem pv_bonusesChk_eq (b i : ℚ) (n : ℤ) (hi : 0 ≤ i) :
    pv_bonusesChk b i n = some (pv_bonuses b i n) := by
  unfold pv_bonusesChk pv_bonuses
  by_cases h1 : b ≤ 0 ∨ n ≤ 0
  · simp [h1]
  · by_cases h2 : i = 0
    · simp [h1, h2]
    · have hbase : (1 : ℚ) + i ≠ 0 := by
        have : 0 < i := lt_of_le_of_ne hi (Ne.symm h2)
        intro hc
        linarith
      simp only [if_neg h1, if_neg h2]
      exact pvBonusLoopChk_eq b i n hbase 6 0

/-- monthly_payment_from_total_loanChk agrees with
monthly_payment_from_total_loan at every nonnegative rate and positive
loan term. -/
theorem monthly_paymentChk_eq (total b rate : ℚ) (years : ℤ)
    (hr : 0 ≤ rate) (hy : 1 ≤ years) :
    monthly_payment_from_total_loanChk total b rate years =
      some (monthly_payment_from_total_loan total b rate years) := by
  have hn0 : ¬ (years * 12 ≤ 0) := by omega
  have hi0 : (0 : ℚ) ≤ rate / 100 / 12 := by positivity
  simp only [monthly_payment_from_total_loanChk, monthly_payment_from_total_loan,
    if_neg hn0, pv_bonusesChk_eq _ _ _ hi0]
  by_cases h2 : rate / 100 / 12 = 0
  · have hncast : ((years * 12 : ℤ) : ℚ) ≠ 0 := by
      exact_mod_cast (by omega : (years * 12 : ℤ) ≠ 0)
    simp only [if_pos h2, if_neg hncast]
  · have hipos : 0 < rate / 100 / 12 := lt_of_le_of_ne hi0 (Ne.symm h2)
    have hbase : (1 : ℚ) + rate / 100 / 12 ≠ 0 := by intro hc; linarith
    have hD : 1 - (1 + rate / 100 / 12) ^ (-(years * 12)) ≠ 0 :=
      ne_of_gt (annuity_denom_pos _ _ hipos (by omega))
    simp only [if_neg h2, if_neg hbase, if_neg hD]

/-- C1: the claim says disposable funds are self funds plus total loan
minus the TAX-INCLUSIVE renovation cost.  The myapp calc handler does
exactly that (MyApp.disposable), but src/app/main.py line 283 subtracts
the tax-exclusive cost: at reqC1 the app endpoint prices from
2000 + 12 - 1070 = 942 (price 872.2), while the specified disposable
2000 + 12 - 1177 = 835 would give price 773.1. -/
theorem app_disposable_uses_pre_tax_cost :
    App.calcEndpoint reqC1 = Except.ok resC1 ∧
    pyRound (solve_purchase_price
      (2000 + 12 - full_renovation_cost 60 * (1 + TAX_RATE)) FEE_RATE) 1 = 7731 / 10 ∧
    resC1.purchasable_price_man ≠ 7731 / 10 := by
  refine ⟨?_, ?_, by norm_num [resC1]⟩
  · norm_num [reqC1, resC1, App.calcEndpoint, App.calcFn, App.finish,
      loan_capacity_by_payments, pv_annuity, pv_bonuses, full_renovation_cost,
      solve_purchase_price, max_def, pyRound, pyRoundInt, FEE_RATE, TAX_RATE]
  · norm_num [full_renovation_cost, solve_purchase_price, max_def,
      pyRound, pyRoundInt, FEE_RATE, TAX_RATE]

/-- C2: feeding the forward solve (payment to loan) into the reverse
solve (loan to payment) returns the original monthly payment exactly
(the rational model has no rounding error), for every monthly m >= 0,
bonus b >= 0, rate r > 0 and term y >= 1. -/
theorem loan_payment_roundtrip (m b r : ℚ) (y : ℤ)
    (hm : 0 ≤ m) (hb : 0 ≤ b) (hr : 0 < r) (hy : 1 ≤ y) :
    monthly_payment_from_total_loan (loan_capacity_by_payments m b r y) b r y = m := by
  have hn0 : ¬ (y * 12 ≤ 0) := by omega
  have hi : 0 < r / 100 / 12 := by positivity
  have hine : r / 100 / 12 ≠ 0 := ne_of_gt hi
  have hD : 0 < 1 - (1 + r / 100 / 12) ^ (-(y * 12)) :=
    annuity_denom_pos _ _ hi (by omega)
  simp only [monthly_payment_from_total_loan, loan_capacity_by_payments, pv_annuity,
    if_neg hn0, if_neg hine]
  rw [add_sub_cancel_right]
  rw [max_eq_left (div_nonneg (mul_nonneg hm hD.le) hi.le)]
  rw [div_mul_cancel₀ _ hine, mul_div_cancel_right₀ _ (ne_of_gt hD)]

/-- C2 witness at m = 1, b = 0, r = 1200, y = 1. -/
theorem loan_payment_roundtrip_witness :
    (0 : ℚ) ≤ 1 ∧ (0 : ℚ) ≤ 0 ∧ (0 : ℚ) < 1200 ∧ (1 : ℤ) ≤ 1 ∧
    monthly_payment_from_total_loan (loan_capacity_by_payments 1 0 1200 1) 0 1200 1 = 1 :=
  ⟨by norm_num, le_refl 0, by norm_num, le_refl 1,
    loan_payment_roundtrip 1 0 1200 1 (by norm_num) (le_refl 0) (by norm_num) (le_refl 1)⟩

/-- C3 (amended): loan terms outside [1,50] are rejected by both
versions before any computation; the remaining numeric checks exist
only in the app version, which rejects non-positive area or monthly
payment and negative self funds or rate with a 400 error and no result. -/
theorem validation_rejects_out_of_contract :
    (∀ areq : App.CalcReq,
        areq.years ≤ 0 ∨ 50 < areq.years ∨ areq.area_need_m2 ≤ 0 ∨ areq.self_man < 0 ∨
          areq.rate_percent < 0 ∨ areq.monthly_man < 0 →
        exOk (App.calcEndpoint areq) = false) ∧
    (∀ mreq : MyApp.CalcReq, mreq.years ≤ 0 ∨ 50 < mreq.years →
        exOk (MyApp.calcEndpoint mreq) = false) := by
  constructor
  · intro areq h
    unfold App.calcEndpoint
    by_cases hy : areq.years ≤ 0 ∨ 50 < areq.years
    · simp [hy, exOk]
    · have hg : areq.self_man < 0 ∨ areq.monthly_man ≤ 0 ∨ areq.rate_percent < 0 ∨
          areq.area_need_m2 ≤ 0 := by
        rcases h with h | h | h | h | h | h
        · exact absurd (Or.inl h) hy
        · exact absurd (Or.inr h) hy
        · exact Or.inr (Or.inr (Or.inr h))
        · exact Or.inl h
        · exact Or.inr (Or.inr (Or.inl h))
        · exact Or.inr (Or.inl (le_of_lt h))
      unfold App.calcFn
      simp [hy, hg, exOk]
  · intro mreq h
    unfold MyApp.calcEndpoint
    simp [h, exOk]

/-- C3 counterexample: the myapp endpoint accepts negative self funds
and non-positive area and produces an ordinary result, so the claim
fails on the myapp version of calc. -/
theorem myapp_accepts_negative_inputs :
    reqC3neg.self_man < 0 ∧ reqC3neg.area_need_m2 ≤ 0 ∧
    exOk (MyApp.calcEndpoint reqC3neg) = true := by
  refine ⟨by norm_num [reqC3neg], by norm_num [reqC3neg], ?_⟩
  norm_num [reqC3neg, MyApp.calcEndpoint, exOk]

/-- C3 witness: both endpoints reject an out-of-range loan term. -/
theorem validation_rejects_witness :
    exOk (App.calcEndpoint reqC3wa) = false ∧
    exOk (MyApp.calcEndpoint reqC3wm) = false :=
  ⟨validation_rejects_out_of_contract.1 reqC3wa (Or.inl (by norm_num [reqC3wa])),
    validation_rejects_out_of_contract.2 reqC3wm (Or.inr (by norm_num [reqC3wm]))⟩

/-- C4 (amended): with MANUAL mode and no manual cost the app version
returns a 400 error and no result, while the myapp version silently
substitutes a renovation cost of 0, without even a warning. -/
theorem manual_reno_cost_handling :
    (∀ areq : App.CalcReq, areq.reno_mode = RenoMode.manual →
        areq.reno_cost_input_man = none → exOk (App.calcEndpoint areq) = false) ∧
    (∀ mreq : MyApp.CalcReq, mreq.reno_mode = RenoMode.manual →
        mreq.reno_cost_input_man = none →
        (MyApp.calcFn mreq).reno_cost_man = 0 ∧
          Warn.renoW ∉ MyApp.warnList mreq) := by
  constructor
  · intro areq h1 h2
    unfold App.calcEndpoint App.calcFn
    by_cases hy : areq.years ≤ 0 ∨ 50 < areq.years
    · simp [hy, exOk]
    · by_cases hg : areq.self_man < 0 ∨ areq.monthly_man ≤ 0 ∨ areq.rate_percent < 0 ∨
          areq.area_need_m2 ≤ 0
      · simp [hy, hg, exOk]
      · simp [hy, hg, h1, h2, exOk]
  · intro mreq h1 h2
    have hreno : MyApp.renoPair mreq = (0, false) := by
      simp [MyApp.renoPair, h1, h2, normalize_man_input]
    constructor
    · simp [MyApp.calcFn, hreno]
      norm_num [pyRound, pyRoundInt]
    · by_cases h3 : (MyApp.selfIn mreq).2 <;> by_cases h4 : (MyApp.monthlyIn mreq).2 <;>
        by_cases h5 : (MyApp.totalIn mreq).2 <;> by_cases h6 : (MyApp.bonusIn mreq).2 <;>
        simp [MyApp.warnList, hreno, h3, h4, h5, h6]

/-- C4 counterexample: the myapp endpoint, given MANUAL mode with no
manual cost, produces an ordinary result with renovation cost 0 and an
empty warning list -- no ValidationError, a silent default. -/
theorem myapp_defaults_missing_reno_cost :
    exOk (MyApp.calcEndpoint reqC4m) = true ∧
    (MyApp.calcFn reqC4m).reno_cost_man = 0 ∧
    MyApp.warnList reqC4m = [] := by
  refine ⟨?_, ?_, ?_⟩
  · norm_num [reqC4m, MyApp.calcEndpoint, exOk]
  · norm_num [reqC4m, MyApp.calcFn, MyApp.renoPair, normalize_man_input,
      pyRound, pyRoundInt]
  · norm_num [reqC4m, MyApp.warnList, MyApp.selfIn, MyApp.monthlyIn, MyApp.totalIn,
      MyApp.bonusIn, MyApp.renoPair, normalize_man_input]

/-- C4 witness for the amended theorem. -/
theorem manual_reno_cost_handling_witness :
    exOk (App.calcEndpoint reqC4wa) = false ∧
    (MyApp.calcFn reqC4m).reno_cost_man = 0 ∧
    Warn.renoW ∉ MyApp.warnList reqC4m :=
  ⟨manual_reno_cost_handling.1 reqC4wa rfl rfl,
    (manual_reno_cost_handling.2 reqC4m rfl rfl).1,
    (manual_reno_cost_handling.2 reqC4m rfl rfl).2⟩

/-- C5: the myapp calc runs the reverse solve exactly when the
normalized total-loan input is positive and the normalized monthly
payment is not; otherwise it runs the forward solve, and an absent
monthly is treated as zero. -/
theorem solve_direction (req : MyApp.CalcReq) :
    (0 < (MyApp.totalIn req).1 ∧ (MyApp.monthlyIn req).1 ≤ 0 →
      (MyApp.calcFn req).total_loan_man = pyRound (MyApp.totalIn req).1 1 ∧
      (MyApp.calcFn req).monthly_man_out =
        pyRound (monthly_payment_from_total_loan (MyApp.totalIn req).1
          (MyApp.bonusIn req).1 req.rate_percent req.years) 2) ∧
    (¬ (0 < (MyApp.totalIn req).1 ∧ (MyApp.monthlyIn req).1 ≤ 0) →
      (MyApp.calcFn req).monthly_man_out = pyRound (MyApp.monthlyIn req).1 2 ∧
      (MyApp.calcFn req).total_loan_man =
        pyRound (loan_capacity_by_payments (MyApp.monthlyIn req).1
          (MyApp.bonusIn req).1 req.rate_percent req.years) 1) ∧
    (req.monthly_man = none → (MyApp.monthlyIn req).1 = 0) := by
  refine ⟨?_, ?_, ?_⟩
  · intro h
    constructor <;> simp [MyApp.calcFn, MyApp.loanMonthly, h]
  · intro h
    constructor <;> simp [MyApp.calcFn, MyApp.loanMonthly, h]
  · intro h
    simp [MyApp.monthlyIn, h]

/-- C5 witness: a positive total-loan input with an absent monthly
payment selects the reverse solve. -/
theorem solve_direction_witness :
    (0 < (MyApp.totalIn reqC5w).1 ∧ (MyApp.monthlyIn reqC5w).1 ≤ 0) ∧
    (MyApp.calcFn reqC5w).total_loan_man = pyRound (MyApp.totalIn reqC5w).1 1 ∧
    (MyApp.calcFn reqC5w).monthly_man_out =
      pyRound (monthly_payment_from_total_loan (MyApp.totalIn reqC5w).1
        (MyApp.bonusIn reqC5w).1 reqC5w.rate_percent reqC5w.years) 2 :=
  have hc : 0 < (MyApp.totalIn reqC5w).1 ∧ (MyApp.monthlyIn reqC5w).1 ≤ 0 := by
    norm_num [MyApp.totalIn, MyApp.monthlyIn, reqC5w, normalize_man_input]
  ⟨hc, (solve_direction reqC5w).1 hc⟩

/-- C6: the unit normalizer maps null to (0, false), rescales any value
at or above 100000 by 1/10000 flagging it, leaves any smaller value
unchanged and unflagged, and in particular at the two boundary inputs
99999.99 and 100000. -/
theorem normalize_man_input_spec :
    normalize_man_input none = ((0 : ℚ), false) ∧
    (∀ x : ℚ, 100000 ≤ x → normalize_man_input (some x) = (x / 10000, true)) ∧
    (∀ x : ℚ, x < 100000 → normalize_man_input (some x) = (x, false)) ∧
    normalize_man_input (some (9999999 / 100)) = ((9999999 / 100 : ℚ), false) ∧
    normalize_man_input (some 100000) = ((10 : ℚ), true) := by
  refine ⟨rfl, ?_, ?_, ?_, ?_⟩
  · intro x hx
    simp [normalize_man_input, hx]
  · intro x hx
    simp [normalize_man_input, not_le.mpr hx]
  · norm_num [normalize_man_input]
  · norm_num [normalize_man_input]

/-- C6 witness at 200000 (rescaled) and 3 (unchanged). -/
theorem normalize_man_input_spec_witness :
    normalize_man_input (some 200000) = ((200000 : ℚ) / 10000, true) ∧
    normalize_man_input (some 3) = ((3 : ℚ), false) :=
  ⟨normalize_man_input_spec.2.1 200000 (by norm_num),
    normalize_man_input_spec.2.2.1 3 (by norm_num)⟩

/-- C7 (amended): re-normalizing the value component is the identity
with corrected = false whenever that value is already normalized
(below 100000), which holds for every input below 10^9 and for null;
for inputs of 10^9 or more the output is itself at least 100000 and is
rescaled again. -/
theorem normalize_idempotent_on_normalized (x : Option ℚ)
    (h : (normalize_man_input x).1 < 100000) :
    normalize_man_input (some ((normalize_man_input x).1)) =
      (((normalize_man_input x).1), false) := by
  set v := (normalize_man_input x).1 with hv
  simp [normalize_man_input, not_le.mpr h]

/-- C7 counterexample: at input 10^9 the normalized value is 100000,
and re-normalizing rescales it to (10, true) instead of returning it
unchanged with corrected = false. -/
theorem normalize_not_idempotent_at_large :
    (normalize_man_input (some 1000000000)).1 = 100000 ∧
    normalize_man_input (some ((normalize_man_input (some 1000000000)).1)) ≠
      (((normalize_man_input (some 1000000000)).1), false) := by
  constructor
  · norm_num [normalize_man_input]
  · norm_num [normalize_man_input]

/-- C7 witness at input 7. -/
theorem normalize_idempotent_witness :
    (normalize_man_input (some 7)).1 < 100000 ∧
    normalize_man_input (some ((normalize_man_input (some 7)).1)) =
      (((normalize_man_input (some 7)).1), false) :=
  have h : (normalize_man_input (some 7)).1 < 100000 := by
    norm_num [normalize_man_input]
  ⟨h, normalize_idempotent_on_normalized (some 7) h⟩

/-- C8 (amended): for every nonnegative fee rate the solver returns
disposable / (1 + fee_rate) clamped to a minimum of 0 (a negative
configured fee rate is first clamped to 0, see C10); the result is
never negative for any inputs; solve(-500, 0.08) = 0; and the myapp
calc reports the fee as the unrounded returned price times the fee
rate. -/
theorem solve_purchase_price_spec :
    (∀ total fee : ℚ, 0 ≤ fee →
      solve_purchase_price total fee = max (total / (1 + fee)) 0) ∧
    (∀ total fee : ℚ, 0 ≤ solve_purchase_price total fee) ∧
    solve_purchase_price (-500) (8 / 100) = 0 ∧
    (∀ req : MyApp.CalcReq,
      (MyApp.calcFn req).fee_man =
        pyRound (solve_purchase_price (MyApp.disposable req) FEE_RATE * FEE_RATE) 1) := by
  refine ⟨?_, ?_, ?_, fun req => rfl⟩
  · intro total fee h
    rw [solve_purchase_price, max_eq_left h]
  · intro total fee
    exact le_max_right _ _
  · norm_num [solve_purchase_price, max_def]

/-- C8 counterexample: at a negative fee rate the claimed formula
disposable / (1 + fee_rate) fails -- the code clamps the rate to 0 and
returns 100, not 100 / (1 - 1/2) = 200. -/
theorem solve_purchase_price_negative_fee_cex :
    solve_purchase_price 100 (-1 / 2) = 100 ∧
    solve_purchase_price 100 (-1 / 2) ≠ max (100 / (1 + (-1 / 2))) 0 := by
  constructor
  · norm_num [solve_purchase_price, max_def]
  · norm_num [solve_purchase_price, max_def]

/-- C8 witness at disposable 100 and fee rate 0.08. -/
theorem solve_purchase_price_spec_witness :
    (0 : ℚ) ≤ 8 / 100 ∧
    solve_purchase_price 100 (8 / 100) = max (100 / (1 + 8 / 100)) 0 :=
  ⟨by norm_num, solve_purchase_price_spec.1 100 (8 / 100) (by norm_num)⟩

/-- C9: with a nonnegative rate and a loan term in [1,50], the checked
variants of pv_annuity, pv_bonuses and monthly_payment_from_total_loan
-- which return none at any division by zero or zero base raised to a
negative power -- all succeed and agree with the originals: every
division the formulas perform is on a nonzero divisor, made so by the
explicit zero-rate branches and the early returns. -/
theorem no_division_by_zero (monthly bonus total rate : ℚ) (years : ℤ)
    (h1 : 0 ≤ rate) (h2 : 1 ≤ years) (h3 : years ≤ 50) :
    pv_annuityChk monthly (rate / 100 / 12) (years * 12) =
      some (pv_annuity monthly (rate / 100 / 12) (years * 12)) ∧
    pv_bonusesChk bonus (rate / 100 / 12) (years * 12) =
      some (pv_bonuses bonus (rate / 100 / 12) (years * 12)) ∧
    monthly_payment_from_total_loanChk total bonus rate years =
      some (monthly_payment_from_total_loan total bonus rate years) :=
  ⟨pv_annuityChk_eq _ _ _ (by positivity),
    pv_bonusesChk_eq _ _ _ (by positivity),
    monthly_paymentChk_eq _ _ _ _ h1 h2⟩

/-- C9 witness at rate 0 and a one-year term. -/
theorem no_division_by_zero_witness :
    (0 : ℚ) ≤ 0 ∧ (1 : ℤ) ≤ 1 ∧ (1 : ℤ) ≤ 50 ∧
    pv_annuityChk 1 (0 / 100 / 12) (1 * 12) =
      some (pv_annuity 1 (0 / 100 / 12) (1 * 12)) ∧
    pv_bonusesChk 1 (0 / 100 / 12) (1 * 12) =
      some (pv_bonuses 1 (0 / 100 / 12) (1 * 12)) ∧
    monthly_payment_from_total_loanChk 1 1 0 1 =
      some (monthly_payment_from_total_loan 1 1 0 1) :=
  ⟨le_refl 0, le_refl 1, by norm_num,
    (no_division_by_zero 1 1 1 0 1 (le_refl 0) (le_refl 1) (by norm_num)).1,
    (no_division_by_zero 1 1 1 0 1 (le_refl 0) (le_refl 1) (by norm_num)).2.1,
    (no_division_by_zero 1 1 1 0 1 (le_refl 0) (le_refl 1) (by norm_num)).2.2⟩

/-- C10: a negative configured fee rate is clamped to 0 before the
division, so the result is exactly max(total_funds, 0) and never
exceeds the disposable funds. -/
theorem negative_fee_rate_clamped (total fee : ℚ) (h : fee < 0) :
    solve_purchase_price total fee = max total 0 := by
  rw [solve_purchase_price, max_eq_right h.le, add_zero, div_one]

/-- C10 witness at total 100 and fee rate -1/2. -/
theorem negative_fee_rate_clamped_witness :
    ((-1 : ℚ) / 2) < 0 ∧ solve_purchase_price 100 ((-1) / 2) = max 100 0 :=
  ⟨by norm_num, negative_fee_rate_clamped 100 ((-1) / 2) (by norm_num)⟩
